import Mathlib

/-!
# Verification of `terraform-provider-vtex`

Shallow embedding of the repository's client and resource logic:

* `src/internal/client/client.go` — token manager (`getToken`, `refreshToken`)
  and the resilient request executor (`doRequestWithRetry`);
* `src/internal/provider/vtex_user_role_resource.go` — `Create`'s default-name
  derivation and ID synthesis, and `ImportState`'s ID parsing.

Modelling conventions:

* Time and durations are `Int` nanoseconds (mirroring Go's `time.Duration`
  unit).  `time.Now().Before(e)` becomes `now < e`.  Where the source
  performs Go integer arithmetic that can overflow — the expiry computation
  `time.Duration(tokenResp.ExpiresIn-300) * time.Second` runs in int64 with
  Go-defined wraparound — the embedding wraps explicitly (`wrap64`).
* Go computes backoff updates as `time.Duration(float64(d) * 1.5)` and
  `time.Duration(float64(d) * 1.1)`.  For every value reachable from the
  constants below, multiplication by 1.5 in float64 is exact (the operands
  need at most 35 mantissa bits) and `time.Duration`'s truncation of the
  nonnegative result coincides with flooring, so the update equals
  `d * 3 / 2` on integers; for 1.1 the float rounding error is below 2e-6 ns
  while the true products lie on a grid of 0.1 ns, so truncation again
  coincides with `d * 11 / 10` on integers.  The embedding therefore uses
  exact integer arithmetic `d * 3 / 2` and `d * 11 / 10` (all reachable
  values are nonnegative, where Lean's `Int` division agrees with flooring).
* Network interactions are an oracle: each loop iteration `i` is given the
  outcome the token endpoint would return if contacted (once for the
  fast-path `getToken`, once for a forced refresh) and the outcome of the
  VTEX HTTP request.  `json.Marshal` of `UserRoleRequest` (a struct of
  strings) cannot fail and is omitted, as is the unreachable
  `http.NewRequest` error path.
* Sleeping advances the model clock by the slept duration; network calls are
  instantaneous in the model.
-/

namespace Vtex

/-! ## Token manager (`client.go`, `getToken` / `refreshToken`) -/

/-- The token-related fields of `VtexClient`: `token string` and
`tokenExpiry time.Time` (here: `Int` nanoseconds since an arbitrary epoch). -/
structure TokenState where
  token : String
  tokenExpiry : Int
deriving DecidableEq, Repr

/-- Decoded `OktaTokenResponse` from `client.go`. -/
structure OktaTokenResponse where
  accessToken : String
  tokenType : String
  expiresIn : Int
deriving DecidableEq, Repr

/-- Outcome of one contact with the Okta token endpoint, as `getToken`
distinguishes them: transport error from `httpClient.Do`, a non-200 status
(with body), a 200 whose body fails to decode, or a decoded response. -/
inductive TokenFetchResult where
  | transportError (msg : String)
  | badStatus (status : Int) (body : String)
  | decodeError (msg : String)
  | ok (resp : OktaTokenResponse)
deriving DecidableEq, Repr

/-- The fast-path validity test of `getToken`:
`c.token != "" && time.Now().Before(c.tokenExpiry)`. -/
def tokenValid (c : TokenState) (now : Int) : Bool :=
  c.token ≠ "" && now < c.tokenExpiry

/-- Go two's-complement int64 wraparound: the representative of `x` modulo
`2^64` lying in `[-2^63, 2^63)`. -/
def wrap64 (x : Int) : Int :=
  (x + 9223372036854775808) % 18446744073709551616 - 9223372036854775808

/-- Model of `getToken`: serve the cached token while valid; otherwise contact the
token endpoint (outcome `fetch`).  On success store the token and set the
expiry to `now` plus the duration `time.Duration(expiresIn-300) * time.Second`
— both the subtraction (in Go `int`) and the multiplication by 10^9 (in
`time.Duration`, i.e. int64) wrap on overflow; on failure return the error
and leave the cached state untouched.  The double-checked locking of the
source collapses in this sequential model. -/
def getToken (c : TokenState) (now : Int) (fetch : TokenFetchResult) :
    Except String (String × TokenState) :=
  if tokenValid c now then
    .ok (c.token, c)
  else
    match fetch with
    | .transportError e => .error ("error requesting token: " ++ e)
    | .badStatus s body =>
        .error ("error obtaining token: status " ++ toString s ++ ", body: " ++ body)
    | .decodeError e => .error ("error decoding token response: " ++ e)
    | .ok r =>
        let c' : TokenState :=
          { token := r.accessToken
            tokenExpiry := now + wrap64 (wrap64 (r.expiresIn - 300) * 1000000000) }
        .ok (c'.token, c')

/-- Model of `refreshToken`: clear `token` and `tokenExpiry` (Go zero `time.Time`,
modelled as instant 0), then run `getToken`. -/
def refreshToken (now : Int) (fetch : TokenFetchResult) :
    Except String (String × TokenState) :=
  getToken { token := "", tokenExpiry := 0 } now fetch

/-! ## Resilient request executor (`client.go`, `doRequestWithRetry`) -/

/-- Retry constants of `client.go`, in nanoseconds. -/
def maxRetries : Nat := 20

/-- Constant `baseWait = 100 * time.Millisecond`. -/
def baseWait : Int := 100000000

/-- Constant `maxWait = 5 * time.Second`, the initial backoff ceiling. -/
def maxWait : Int := 5000000000

/-- The absolute ceiling `15 * time.Second` appearing inline in the
rate-limit branch. -/
def absoluteMaxWait : Int := 15000000000

/-- Outcome of the mutating HTTP request of one attempt: transport error
from `httpClient.Do`, or a status code plus response body. -/
inductive ReqOutcome where
  | netError
  | status (code : Int) (body : String)
deriving DecidableEq, Repr

/-- The oracle data for one loop iteration: what the token endpoint would
answer for the top-of-loop `getToken`, what it would answer for a forced
refresh in the 401/403 branch, and the outcome of the VTEX request. -/
structure AttemptEnv where
  tokenFetch : TokenFetchResult
  refreshFetch : TokenFetchResult
  response : ReqOutcome
deriving DecidableEq, Repr

/-- The executor's per-invocation mutable state: cached-token state, model
clock, `currentWait`, `currentMaxWait`. -/
structure LoopState where
  tok : TokenState
  now : Int
  wait : Int
  maxW : Int
deriving DecidableEq, Repr

/-- Result of one loop iteration: either the function returns (`done`, with
`none` for a nil error, and whether an HTTP request to VTEX was issued and
whether a forced refresh was attempted), or the loop continues with a new
state (recording the slept duration, if any, and whether a forced refresh
happened). -/
inductive StepOut where
  | done (res : Option String) (requested : Bool) (refreshed : Bool)
  | next (s : LoopState) (slept : Option Int) (refreshed : Bool)
deriving DecidableEq, Repr

/-- Update `currentWait = min(time.Duration(float64(currentWait)*1.5), currentMaxWait)`
(exact on integers for all reachable values, see the header). -/
def nextWait (w mw : Int) : Int :=
  min (w * 3 / 2) mw

/-- Update `currentMaxWait = min(time.Duration(float64(currentMaxWait)*1.1), 15*time.Second)`. -/
def nextMaxWait (mw : Int) : Int :=
  min (mw * 11 / 10) absoluteMaxWait

/-- One iteration of `doRequestWithRetry`'s loop body, in source order:
get a token (returning its error on failure); issue the request; then
classify: transport error → sleep and grow the wait; 2xx → nil; 401/403 →
forced refresh (returning its error on failure) and retry without sleeping;
404/504/429 → sleep, grow the wait, grow the ceiling; ≥500 → sleep and grow
the wait; any other status → return the status/body error. -/
def stepRetry (env : AttemptEnv) (s : LoopState) : StepOut :=
  match getToken s.tok s.now env.tokenFetch with
  | .error e => .done (some ("error getting token: " ++ e)) false false
  | .ok (_token, c1) =>
    match env.response with
    | .netError =>
        .next { tok := c1, now := s.now + s.wait,
                wait := nextWait s.wait s.maxW, maxW := s.maxW }
          (some s.wait) false
    | .status code body =>
        if 200 ≤ code ∧ code < 300 then
          .done none true false
        else if code = 401 ∨ code = 403 then
          match refreshToken s.now env.refreshFetch with
          | .error e => .done (some ("error refreshing token: " ++ e)) true true
          | .ok (_t, c2) =>
              .next { tok := c2, now := s.now, wait := s.wait, maxW := s.maxW }
                none true
        else if code = 404 ∨ code = 504 ∨ code = 429 then
          .next { tok := c1, now := s.now + s.wait,
                  wait := nextWait s.wait s.maxW, maxW := nextMaxWait s.maxW }
            (some s.wait) false
        else if 500 ≤ code then
          .next { tok := c1, now := s.now + s.wait,
                  wait := nextWait s.wait s.maxW, maxW := s.maxW }
            (some s.wait) false
        else
          .done (some ("request failed: status " ++ toString code ++
                       ", body: " ++ body)) true false

/-- Observable trace of one `doRequestWithRetry` invocation: the returned
error (`none` = nil), the number of HTTP requests issued to the VTEX
endpoint, the sleep durations in order, and the number of forced token
refreshes attempted. -/
structure ExecTrace where
  result : Option String
  requests : Nat
  sleeps : List Int
  refreshes : Nat
deriving DecidableEq, Repr

/-- The sleep log contributed by one step. -/
def optToList : Option Int → List Int
  | some d => [d]
  | none => []

/-- The bounded loop: `fuel` remaining iterations, `i` the index of the
current iteration into the oracle.  Exhausted fuel returns the
`max retries` error of the source. -/
def runRetry (env : Nat → AttemptEnv) : Nat → Nat → LoopState → ExecTrace
  | 0, _, _ =>
      { result := some "max retries (20) exceeded", requests := 0,
        sleeps := [], refreshes := 0 }
  | fuel + 1, i, s =>
    match stepRetry (env i) s with
    | .done r req refr =>
        { result := r, requests := if req then 1 else 0, sleeps := [],
          refreshes := if refr then 1 else 0 }
    | .next s' slept refr =>
        let t := runRetry env fuel (i + 1) s'
        { result := t.result
          requests := t.requests + 1
          sleeps := optToList slept ++ t.sleeps
          refreshes := t.refreshes + (if refr then 1 else 0) }

/-- Model of `doRequestWithRetry`: run the loop from a fresh retry budget —
`currentWait = baseWait`, `currentMaxWait = maxWait`, `maxRetries`
iterations — over the given cached-token state and start time. -/
def doRequestWithRetry (env : Nat → AttemptEnv) (c : TokenState) (t0 : Int) :
    ExecTrace :=
  runRetry env maxRetries 0 { tok := c, now := t0, wait := baseWait, maxW := maxWait }

/-! ## Resource layer (`vtex_user_role_resource.go`) -/

/-- The first components of Go's `strings.SplitN(s, sep, n)` on character
lists: split before the first occurrence of `sep`, returning the part
before it and the rest after it, or `none` when `sep` does not occur. -/
def splitFirst (sep : Char) : List Char → Option (List Char × List Char)
  | [] => none
  | c :: cs =>
      if c = sep then some ([], cs)
      else
        match splitFirst sep cs with
        | none => none
        | some (pre, post) => some (c :: pre, post)

/-- Go `strings.SplitN(s, sep, n)` for `n ≥ 0` on character lists: at most
`n` parts, the last part carrying every remaining occurrence of `sep`. -/
def splitNChars (sep : Char) : Nat → List Char → List (List Char)
  | 0, _ => []
  | 1, cs => [cs]
  | n + 2, cs =>
      match splitFirst sep cs with
      | none => [cs]
      | some (pre, post) => pre :: splitNChars sep (n + 1) post

/-- The first element of Go `strings.Split(email, "@")` — everything
strictly before the first `@`, or the whole string when there is none.
`strings.Split` always yields at least one part, so indexing `[0]` is
total. -/
def emailLocalPart (email : String) : String :=
  match splitFirst '@' email.toList with
  | none => email
  | some (pre, _) => String.mk pre

/-- The attribute values a successful `Create` or `ImportState` leaves in
Terraform state (`VtexUserRoleResourceModel`). -/
structure UserRoleState where
  id : String
  email : String
  name : String
  account : String
  roleName : String
deriving DecidableEq, Repr

/-- The plan data `Create` receives; a Terraform `null` name reads back as
`""` through `ValueString`. -/
structure PlanData where
  email : String
  name : String
  account : String
  roleName : String
deriving DecidableEq, Repr

/-- The state-shaping part of `Create` (the remote call succeeding): default
the name to the local part of the email when empty, then synthesize
`id = email + ":" + account + ":" + role_name`. -/
def createState (d : PlanData) : UserRoleState :=
  let name := if d.name = "" then emailLocalPart d.email else d.name
  { id := d.email ++ ":" ++ d.account ++ ":" ++ d.roleName
    email := d.email
    name := name
    account := d.account
    roleName := d.roleName }

/-- Model of `ImportState`: `strings.SplitN(req.ID, ":", 3)`; unless that yields
exactly three parts, fail with the `Invalid Import ID` diagnostic and set
nothing; otherwise set id, email, account, role_name and derive the name
from the email's local part. -/
def importState (reqID : String) : Except String UserRoleState :=
  let parts := (splitNChars ':' 3 reqID.toList).map String.mk
  if parts.length = 3 then
    .ok { id := reqID
          email := parts.getD 0 ""
          name := emailLocalPart (parts.getD 0 "")
          account := parts.getD 1 ""
          roleName := parts.getD 2 "" }
  else
    .error ("Invalid Import ID: Expected import ID format: email:account:role_name, got: "
            ++ reqID)

/-! ## Concrete scenarios from the spec's testable properties -/

/-- A token-endpoint answer that succeeds with a one-hour token. -/
def fetchOK : TokenFetchResult :=
  .ok { accessToken := "tok2", tokenType := "Bearer", expiresIn := 3600 }

/-- A cached token valid far into the future (expiry at 10^15 ns). -/
def cachedTok : TokenState := { token := "tok", tokenExpiry := 1000000000000000 }

/-- Response sequence `[503, 503, 200]`. -/
def envTwo503 : Nat → AttemptEnv := fun i =>
  if i < 2 then { tokenFetch := fetchOK, refreshFetch := fetchOK, response := .status 503 "" }
  else { tokenFetch := fetchOK, refreshFetch := fetchOK, response := .status 200 "ok" }

/-- Twenty consecutive `500` responses. -/
def envAll500 : Nat → AttemptEnv := fun _ =>
  { tokenFetch := fetchOK, refreshFetch := fetchOK, response := .status 500 "boom" }

/-- Response sequence `[401, 200]` with a working token endpoint. -/
def envOne401 : Nat → AttemptEnv := fun i =>
  if i = 0 then { tokenFetch := fetchOK, refreshFetch := fetchOK, response := .status 401 "denied" }
  else { tokenFetch := fetchOK, refreshFetch := fetchOK, response := .status 200 "ok" }

/-- The token endpoint fails (non-200) on the first iteration and would
succeed from the second one on; the VTEX endpoint always answers 200. -/
def envTokenFail : Nat → AttemptEnv := fun i =>
  if i = 0 then
    { tokenFetch := .badStatus 500 "idp down", refreshFetch := fetchOK,
      response := .status 200 "ok" }
  else { tokenFetch := fetchOK, refreshFetch := fetchOK, response := .status 200 "ok" }

/-- A `400` response on the first attempt. -/
def envOne400 : Nat → AttemptEnv := fun _ =>
  { tokenFetch := fetchOK, refreshFetch := fetchOK, response := .status 400 "bad" }

/-! ## Helper lemmas about the token manager and the executor step -/

/-- While the cached token is valid, `getToken` is the fast path: it returns
the cached token and does not touch the endpoint. -/
theorem getToken_of_valid (c : TokenState) (now : Int) (f : TokenFetchResult)
    (h : tokenValid c now = true) : getToken c now f = .ok (c.token, c) := by
  unfold getToken
  rw [if_pos h]

/-- A failing top-of-loop `getToken` makes the iteration return the wrapped
token error without issuing a request. -/
theorem stepRetry_tokenError (env : AttemptEnv) (s : LoopState) (e : String)
    (hg : getToken s.tok s.now env.tokenFetch = .error e) :
    stepRetry env s = .done (some ("error getting token: " ++ e)) false false := by
  unfold stepRetry
  rw [hg]

/-- Transport-failure branch: sleep `currentWait`, grow the wait, keep the
ceiling. -/
theorem stepRetry_netError (env : AttemptEnv) (s : LoopState)
    (hv : tokenValid s.tok s.now = true) (hr : env.response = .netError) :
    stepRetry env s =
      .next { tok := s.tok, now := s.now + s.wait,
              wait := nextWait s.wait s.maxW, maxW := s.maxW }
        (some s.wait) false := by
  unfold stepRetry
  rw [getToken_of_valid _ _ _ hv, hr]

/-- Branch for 2xx: return nil after the one request of this iteration. -/
theorem stepRetry_2xx (env : AttemptEnv) (s : LoopState) (code : Int) (body : String)
    (hv : tokenValid s.tok s.now = true) (hr : env.response = .status code body)
    (hc : 200 ≤ code ∧ code < 300) :
    stepRetry env s = .done none true false := by
  unfold stepRetry
  rw [getToken_of_valid _ _ _ hv, hr]
  show (if 200 ≤ code ∧ code < 300 then _ else _) = _
  rw [if_pos hc]

/-- Branch for 401/403 with a succeeding forced refresh: continue with the
refreshed token state, no sleep, wait and ceiling untouched. -/
theorem stepRetry_auth (env : AttemptEnv) (s : LoopState) (code : Int) (body : String)
    (t2 : String) (c2 : TokenState)
    (hv : tokenValid s.tok s.now = true) (hr : env.response = .status code body)
    (hc : code = 401 ∨ code = 403)
    (href : refreshToken s.now env.refreshFetch = .ok (t2, c2)) :
    stepRetry env s =
      .next { tok := c2, now := s.now, wait := s.wait, maxW := s.maxW } none true := by
  unfold stepRetry
  rw [getToken_of_valid _ _ _ hv, hr]
  show (if 200 ≤ code ∧ code < 300 then _ else _) = _
  rw [if_neg (by omega), if_pos hc, href]

/-- Branch for 401/403 with a failing forced refresh: return the wrapped
refresh error. -/
theorem stepRetry_authFail (env : AttemptEnv) (s : LoopState) (code : Int)
    (body e : String)
    (hv : tokenValid s.tok s.now = true) (hr : env.response = .status code body)
    (hc : code = 401 ∨ code = 403)
    (href : refreshToken s.now env.refreshFetch = .error e) :
    stepRetry env s = .done (some ("error refreshing token: " ++ e)) true true := by
  unfold stepRetry
  rw [getToken_of_valid _ _ _ hv, hr]
  show (if 200 ≤ code ∧ code < 300 then _ else _) = _
  rw [if_neg (by omega), if_pos hc, href]

/-- Branch for 404/504/429: sleep, grow the wait, grow the ceiling. -/
theorem stepRetry_rate (env : AttemptEnv) (s : LoopState) (code : Int) (body : String)
    (hv : tokenValid s.tok s.now = true) (hr : env.response = .status code body)
    (hc : code = 404 ∨ code = 504 ∨ code = 429) :
    stepRetry env s =
      .next { tok := s.tok, now := s.now + s.wait,
              wait := nextWait s.wait s.maxW, maxW := nextMaxWait s.maxW }
        (some s.wait) false := by
  unfold stepRetry
  rw [getToken_of_valid _ _ _ hv, hr]
  show (if 200 ≤ code ∧ code < 300 then _ else _) = _
  rw [if_neg (by omega), if_neg (by omega), if_pos hc]

/-- Branch for other statuses at least 500 (504 is caught by the rate-limit branch first):
sleep, grow the wait, keep the ceiling. -/
theorem stepRetry_5xx (env : AttemptEnv) (s : LoopState) (code : Int) (body : String)
    (hv : tokenValid s.tok s.now = true) (hr : env.response = .status code body)
    (hc : 500 ≤ code) (hc2 : code ≠ 504) :
    stepRetry env s =
      .next { tok := s.tok, now := s.now + s.wait,
              wait := nextWait s.wait s.maxW, maxW := s.maxW }
        (some s.wait) false := by
  unfold stepRetry
  rw [getToken_of_valid _ _ _ hv, hr]
  show (if 200 ≤ code ∧ code < 300 then _ else _) = _
  rw [if_neg (by omega), if_neg (by omega), if_neg (by omega), if_pos hc]

/-- Fall-through branch (any remaining 4xx): return the status/body error. -/
theorem stepRetry_other (env : AttemptEnv) (s : LoopState) (code : Int) (body : String)
    (hv : tokenValid s.tok s.now = true) (hr : env.response = .status code body)
    (h1 : ¬(200 ≤ code ∧ code < 300)) (h2 : code ≠ 401) (h3 : code ≠ 403)
    (h4 : code ≠ 404) (h5 : code ≠ 429) (h6 : code < 500) :
    stepRetry env s =
      .done (some ("request failed: status " ++ toString code ++ ", body: " ++ body))
        true false := by
  unfold stepRetry
  rw [getToken_of_valid _ _ _ hv, hr]
  show (if 200 ≤ code ∧ code < 300 then _ else _) = _
  rw [if_neg h1, if_neg (by omega), if_neg (by omega), if_neg (by omega)]

/-- Unfolding one iteration of the loop when the step returns. -/
theorem runRetry_done (env : Nat → AttemptEnv) (fuel i : Nat) (s : LoopState)
    (r : Option String) (req refr : Bool)
    (h : stepRetry (env i) s = .done r req refr) :
    runRetry env (fuel + 1) i s =
      { result := r, requests := if req then 1 else 0, sleeps := [],
        refreshes := if refr then 1 else 0 } := by
  rw [runRetry, h]

/-- Unfolding one iteration of the loop when the step continues. -/
theorem runRetry_next (env : Nat → AttemptEnv) (fuel i : Nat) (s s' : LoopState)
    (slept : Option Int) (refr : Bool)
    (h : stepRetry (env i) s = .next s' slept refr) :
    runRetry env (fuel + 1) i s =
      { result := (runRetry env fuel (i + 1) s').result
        requests := (runRetry env fuel (i + 1) s').requests + 1
        sleeps := optToList slept ++ (runRetry env fuel (i + 1) s').sleeps
        refreshes := (runRetry env fuel (i + 1) s').refreshes
                     + (if refr then 1 else 0) } := by
  simp only [runRetry, h]

/-- Inversion for continuing steps: every `next` outcome either slept the
current wait and grew it to `nextWait` (with the ceiling kept or grown to
`nextMaxWait`), or is the 401/403 branch, which sleeps nothing and keeps
wait and ceiling. -/
theorem stepRetry_next_inv (env : AttemptEnv) (s s' : LoopState)
    (slept : Option Int) (refr : Bool)
    (h : stepRetry env s = .next s' slept refr) :
    (s'.wait = nextWait s.wait s.maxW ∧ slept = some s.wait ∧
      (s'.maxW = s.maxW ∨ s'.maxW = nextMaxWait s.maxW)) ∨
    (s'.wait = s.wait ∧ s'.maxW = s.maxW ∧ slept = none) := by
  unfold stepRetry at h
  split at h
  · simp at h
  · split at h
    · left
      simp only [StepOut.next.injEq] at h
      obtain ⟨h1, h2, -⟩ := h
      subst h1
      subst h2
      exact ⟨rfl, rfl, Or.inl rfl⟩
    · split at h
      · simp at h
      · split at h
        · split at h
          · simp at h
          · right
            simp only [StepOut.next.injEq] at h
            obtain ⟨h1, h2, -⟩ := h
            subst h1
            subst h2
            exact ⟨rfl, rfl, rfl⟩
        · split at h
          · left
            simp only [StepOut.next.injEq] at h
            obtain ⟨h1, h2, -⟩ := h
            subst h1
            subst h2
            exact ⟨rfl, rfl, Or.inr rfl⟩
          · split at h
            · left
              simp only [StepOut.next.injEq] at h
              obtain ⟨h1, h2, -⟩ := h
              subst h1
              subst h2
              exact ⟨rfl, rfl, Or.inl rfl⟩
            · simp at h

/-- The backoff invariant `0 ≤ wait ≤ maxW ≤ 15 s` is preserved by every
continuing step, and whatever that step slept is below 15 s. -/
theorem stepRetry_next_bounds (env : AttemptEnv) (s s' : LoopState)
    (slept : Option Int) (refr : Bool)
    (h : stepRetry env s = .next s' slept refr)
    (h0 : 0 ≤ s.wait) (h1 : s.wait ≤ s.maxW) (h2 : s.maxW ≤ absoluteMaxWait) :
    0 ≤ s'.wait ∧ s'.wait ≤ s'.maxW ∧ s'.maxW ≤ absoluteMaxWait ∧
      ∀ d ∈ optToList slept, d ≤ absoluteMaxWait := by
  simp only [absoluteMaxWait] at h2 ⊢
  rcases stepRetry_next_inv env s s' slept refr h with ⟨hw, hs, hm | hm⟩ | ⟨hw, hm, hs⟩
  · subst hs
    rw [hw, hm]
    simp only [nextWait, optToList, List.mem_singleton]
    refine ⟨by omega, by omega, by omega, ?_⟩
    intro d hd
    omega
  · subst hs
    rw [hw, hm]
    simp only [nextWait, nextMaxWait, absoluteMaxWait, optToList, List.mem_singleton]
    refine ⟨by omega, by omega, by omega, ?_⟩
    intro d hd
    omega
  · subst hs
    rw [hw, hm]
    simp only [optToList]
    refine ⟨h0, h1, h2, ?_⟩
    intro d hd
    simp at hd

/-- No recorded sleep of a run from a state satisfying the backoff
invariant exceeds the 15 s absolute ceiling. -/
theorem runRetry_sleeps_le (env : Nat → AttemptEnv) :
    ∀ (fuel i : Nat) (s : LoopState),
      0 ≤ s.wait → s.wait ≤ s.maxW → s.maxW ≤ absoluteMaxWait →
      ∀ d ∈ (runRetry env fuel i s).sleeps, d ≤ absoluteMaxWait := by
  intro fuel
  induction fuel with
  | zero =>
    intro i s _ _ _ d hd
    simp [runRetry] at hd
  | succ n ih =>
    intro i s h0 h1 h2 d hd
    cases hstep : stepRetry (env i) s with
    | done r req refr =>
      rw [runRetry_done env n i s r req refr hstep] at hd
      simp at hd
    | next s' slept refr =>
      rw [runRetry_next env n i s s' slept refr hstep] at hd
      simp only [List.mem_append] at hd
      obtain ⟨hb0, hb1, hb2, hb3⟩ :=
        stepRetry_next_bounds (env i) s s' slept refr hstep h0 h1 h2
      rcases hd with hd | hd
      · exact hb3 d hd
      · exact ih (i + 1) s' hb0 hb1 hb2 d hd

/-- A run never issues more requests than it has fuel. -/
theorem runRetry_requests_le (env : Nat → AttemptEnv) :
    ∀ (fuel i : Nat) (s : LoopState), (runRetry env fuel i s).requests ≤ fuel := by
  intro fuel
  induction fuel with
  | zero =>
    intro i s
    simp [runRetry]
  | succ n ih =>
    intro i s
    cases hstep : stepRetry (env i) s with
    | done r req refr =>
      rw [runRetry_done env n i s r req refr hstep]
      by_cases hreq : req = true <;> simp [hreq]
    | next s' slept refr =>
      rw [runRetry_next env n i s s' slept refr hstep]
      exact Nat.succ_le_succ (ih (i + 1) s')

/-! ## C1 -/

/-- C1 (amended): a token-acquisition failure aborts `doRequestWithRetry`
immediately — a failing top-of-loop `getToken` returns the wrapped token
error with no request issued, and a failing forced refresh after a 401/403
returns the wrapped refresh error; neither continues to the next
iteration. -/
theorem claim_C1 :
    (∀ (env : Nat → AttemptEnv) (fuel i : Nat) (s : LoopState) (e : String),
      getToken s.tok s.now (env i).tokenFetch = .error e →
      runRetry env (fuel + 1) i s =
        { result := some ("error getting token: " ++ e), requests := 0,
          sleeps := [], refreshes := 0 }) ∧
    (∀ (env : Nat → AttemptEnv) (fuel i : Nat) (s : LoopState) (code : Int)
        (body e : String),
      tokenValid s.tok s.now = true →
      (env i).response = .status code body →
      (code = 401 ∨ code = 403) →
      refreshToken s.now (env i).refreshFetch = .error e →
      runRetry env (fuel + 1) i s =
        { result := some ("error refreshing token: " ++ e), requests := 1,
          sleeps := [], refreshes := 1 }) := by
  constructor
  · intro env fuel i s e hg
    rw [runRetry_done env fuel i s _ false false (stepRetry_tokenError (env i) s e hg)]
    rfl
  · intro env fuel i s code body e hv hr hc href
    rw [runRetry_done env fuel i s _ true true
      (stepRetry_authFail (env i) s code body e hv hr hc href)]
    rfl

/-- Witness for C1: with the token endpoint down on the first iteration,
the run returns the wrapped token error at once. -/
theorem claim_C1_witness :
    runRetry envTokenFail 20 0
      { tok := { token := "", tokenExpiry := 0 }, now := 0,
        wait := baseWait, maxW := maxWait } =
      { result := some ("error getting token: " ++
          "error obtaining token: status 500, body: idp down"),
        requests := 0, sleeps := [], refreshes := 0 } :=
  claim_C1.1 envTokenFail 19 0
    { tok := { token := "", tokenExpiry := 0 }, now := 0,
      wait := baseWait, maxW := maxWait }
    "error obtaining token: status 500, body: idp down" rfl

/-- C1 counterexample: the claim as stated is false — with no cached token
and a token endpoint that fails on iteration 0 but would succeed from
iteration 1 on (and a VTEX endpoint that always answers 200), the executor
returns the token error having issued zero requests, instead of
re-attempting; the second conjunct shows the very same client state
succeeds when the first fetch works, so a re-attempt would have
succeeded. -/
theorem claim_C1_counterexample :
    doRequestWithRetry envTokenFail { token := "", tokenExpiry := 0 } 0 =
      { result := some "error getting token: error obtaining token: status 500, body: idp down",
        requests := 0, sleeps := [], refreshes := 0 } ∧
    doRequestWithRetry (fun _ => envTokenFail 1) { token := "", tokenExpiry := 0 } 0 =
      { result := none, requests := 1, sleeps := [], refreshes := 0 } :=
  ⟨rfl, rfl⟩

/-! ## C8 -/

/-- On values representable in int64, `wrap64` is the identity. -/
theorem wrap64_eq_self (x : Int)
    (hlo : -9223372036854775808 ≤ x) (hhi : x < 9223372036854775808) :
    wrap64 x = x := by
  unfold wrap64
  omega

/-- C8 (amended): a token fetch performed at time `t` (cache invalid)
whose response reports `expires_in = E` stores expiry `t + (E − 300)`
seconds — provided the int64 duration computation
`time.Duration(E-300) * time.Second` does not overflow, i.e.
`(E − 300)·10⁹` fits in int64 — and, provided additionally that the
returned access token is a non-empty string, the cached token is then
treated as valid exactly when the current time is before that expiry. -/
theorem claim_C8 (c : TokenState) (t : Int) (r : OktaTokenResponse)
    (hinvalid : tokenValid c t = false) (hne : r.accessToken ≠ "")
    (hlo : -9223372036854775808 ≤ (r.expiresIn - 300) * 1000000000)
    (hhi : (r.expiresIn - 300) * 1000000000 < 9223372036854775808) :
    getToken c t (.ok r) =
      .ok (r.accessToken,
        { token := r.accessToken,
          tokenExpiry := t + (r.expiresIn - 300) * 1000000000 }) ∧
    (∀ now : Int,
      tokenValid
          { token := r.accessToken,
            tokenExpiry := t + (r.expiresIn - 300) * 1000000000 } now = true ↔
        now < t + (r.expiresIn - 300) * 1000000000) := by
  have hw1 : wrap64 (r.expiresIn - 300) = r.expiresIn - 300 :=
    wrap64_eq_self _ (by omega) (by omega)
  have hw2 : wrap64 ((r.expiresIn - 300) * 1000000000)
      = (r.expiresIn - 300) * 1000000000 :=
    wrap64_eq_self _ hlo hhi
  constructor
  · unfold getToken
    rw [if_neg (by simp [hinvalid])]
    show Except.ok (r.accessToken,
        ({ token := r.accessToken,
           tokenExpiry := t + wrap64 (wrap64 (r.expiresIn - 300) * 1000000000) }
          : TokenState))
      = _
    rw [hw1, hw2]
  · intro now
    simp [tokenValid, hne]

/-- Witness for C8: a fetch at time 0 reporting `expires_in = 3600` (whose
duration is far from the int64 bounds) stores expiry 3300 s, and at 1000 s
the token is still served from cache. -/
theorem claim_C8_witness :
    getToken { token := "", tokenExpiry := 0 } 0
        (.ok { accessToken := "tok2", tokenType := "Bearer", expiresIn := 3600 }) =
      .ok ("tok2", { token := "tok2", tokenExpiry := 3300000000000 }) ∧
    (tokenValid { token := "tok2", tokenExpiry := 3300000000000 } 1000000000000 = true ↔
      (1000000000000 : Int) < 3300000000000) := by
  have h := claim_C8 { token := "", tokenExpiry := 0 } 0
    { accessToken := "tok2", tokenType := "Bearer", expiresIn := 3600 } rfl (by decide)
    (by decide) (by decide)
  exact ⟨h.1, h.2 1000000000000⟩

/-- C8 counterexample: the claim as stated is false for a successful fetch
whose decoded `access_token` is the empty string — the expiry is stored as
claimed (here 100 s for `expires_in = 400` at `t = 0`) yet at 50 s, before
the expiry, the cached token is not treated as valid (the fast path also
requires a non-empty token). -/
theorem claim_C8_counterexample :
    getToken { token := "", tokenExpiry := 0 } 0
        (.ok { accessToken := "", tokenType := "Bearer", expiresIn := 400 }) =
      .ok ("", { token := "", tokenExpiry := 100000000000 }) ∧
    (50000000000 : Int) < 100000000000 ∧
    tokenValid { token := "", tokenExpiry := 100000000000 } 50000000000 = false :=
  ⟨rfl, by decide, rfl⟩

/-! ## C3 -/

/-- C3: on `[503, 503, 200]` with a valid cached token the executor
returns nil after three attempts, sleeping 100 ms and then 150 ms
(nanoseconds in the trace); the initial wait is 100 ms, and every step
that sleeps (a transient failure) sleeps the current wait and replaces it
by `min (wait * 1.5) ceiling`. -/
theorem claim_C3 :
    doRequestWithRetry envTwo503 cachedTok 0 =
      { result := none, requests := 3, sleeps := [100000000, 150000000],
        refreshes := 0 } ∧
    baseWait = 100000000 ∧
    (∀ (env : AttemptEnv) (s s' : LoopState) (slept : Option Int) (refr : Bool),
      stepRetry env s = .next s' slept refr → slept ≠ none →
      slept = some s.wait ∧ s'.wait = min (s.wait * 3 / 2) s.maxW) := by
  refine ⟨rfl, rfl, ?_⟩
  intro env s s' slept refr h hs
  rcases stepRetry_next_inv env s s' slept refr h with ⟨hw, hsl, -⟩ | ⟨-, -, hsl⟩
  · exact ⟨hsl, hw⟩
  · exact absurd hsl hs

/-- Witness for C3: a 503 received at wait 100 ms, ceiling 5 s sleeps
100 ms and moves the wait to 150 ms. -/
theorem claim_C3_witness :
    (some (100000000 : Int) = some ((100000000 : Int)) ∧
      (150000000 : Int) = min (100000000 * 3 / 2 : Int) 5000000000) := by
  have h := claim_C3.2.2
    { tokenFetch := fetchOK, refreshFetch := fetchOK, response := .status 503 "" }
    { tok := cachedTok, now := 0, wait := 100000000, maxW := 5000000000 }
    { tok := cachedTok, now := 100000000, wait := 150000000, maxW := 5000000000 }
    (some 100000000) false rfl (by simp)
  exact h

/-! ## C4 -/

/-- C4: the ceiling starts at 5 s; a 404/504/429 response grows it to
`min (ceiling * 1.1) 15 s` (exactly once, in that step); transport
failures, other ≥500 responses, and 401/403 responses leave it unchanged;
the wait grown on a sleeping step is capped at the current ceiling; and no
recorded sleep of any run exceeds 15 s. -/
theorem claim_C4 :
    maxWait = 5000000000 ∧
    absoluteMaxWait = 15000000000 ∧
    (∀ (env : Nat → AttemptEnv) (c : TokenState) (t : Int),
      doRequestWithRetry env c t =
        runRetry env maxRetries 0
          { tok := c, now := t, wait := baseWait, maxW := maxWait }) ∧
    (∀ (env : AttemptEnv) (s : LoopState) (code : Int) (body : String),
      tokenValid s.tok s.now = true → env.response = .status code body →
      (code = 404 ∨ code = 504 ∨ code = 429) →
      stepRetry env s =
        .next { tok := s.tok, now := s.now + s.wait,
                wait := min (s.wait * 3 / 2) s.maxW,
                maxW := min (s.maxW * 11 / 10) absoluteMaxWait }
          (some s.wait) false) ∧
    (∀ (env : AttemptEnv) (s : LoopState),
      tokenValid s.tok s.now = true → env.response = .netError →
      stepRetry env s =
        .next { tok := s.tok, now := s.now + s.wait,
                wait := min (s.wait * 3 / 2) s.maxW, maxW := s.maxW }
          (some s.wait) false) ∧
    (∀ (env : AttemptEnv) (s : LoopState) (code : Int) (body : String),
      tokenValid s.tok s.now = true → env.response = .status code body →
      500 ≤ code → code ≠ 504 →
      stepRetry env s =
        .next { tok := s.tok, now := s.now + s.wait,
                wait := min (s.wait * 3 / 2) s.maxW, maxW := s.maxW }
          (some s.wait) false) ∧
    (∀ (env : AttemptEnv) (s : LoopState) (code : Int) (body : String)
        (t2 : String) (c2 : TokenState),
      tokenValid s.tok s.now = true → env.response = .status code body →
      (code = 401 ∨ code = 403) →
      refreshToken s.now env.refreshFetch = .ok (t2, c2) →
      stepRetry env s =
        .next { tok := c2, now := s.now, wait := s.wait, maxW := s.maxW }
          none true) ∧
    (∀ (env : Nat → AttemptEnv) (c : TokenState) (t : Int),
      ∀ d ∈ (doRequestWithRetry env c t).sleeps, d ≤ absoluteMaxWait) := by
  refine ⟨rfl, rfl, fun _ _ _ => rfl, ?_, ?_, ?_, ?_, ?_⟩
  · intro env s code body hv hr hc
    exact stepRetry_rate env s code body hv hr hc
  · intro env s hv hr
    exact stepRetry_netError env s hv hr
  · intro env s code body hv hr hc hc2
    exact stepRetry_5xx env s code body hv hr hc hc2
  · intro env s code body t2 c2 hv hr hc href
    exact stepRetry_auth env s code body t2 c2 hv hr hc href
  · intro env c t d hd
    exact runRetry_sleeps_le env maxRetries 0
      { tok := c, now := t, wait := baseWait, maxW := maxWait }
      (by simp [baseWait]) (by simp [baseWait, maxWait])
      (by simp [maxWait, absoluteMaxWait]) d hd

/-- Witness for C4: a 429 received at wait 100 ms, ceiling 5 s sleeps
100 ms, moves the wait to 150 ms and the ceiling to 5.5 s; and the 100 ms
sleep recorded in the `[503, 503, 200]` run is within 15 s. -/
theorem claim_C4_witness :
    stepRetry
        { tokenFetch := fetchOK, refreshFetch := fetchOK, response := .status 429 "slow down" }
        { tok := cachedTok, now := 0, wait := 100000000, maxW := 5000000000 } =
      .next { tok := cachedTok, now := 100000000, wait := 150000000,
              maxW := 5500000000 }
        (some 100000000) false ∧
    (100000000 : Int) ≤ absoluteMaxWait := by
  constructor
  · have h := claim_C4.2.2.2.1
      { tokenFetch := fetchOK, refreshFetch := fetchOK, response := .status 429 "slow down" }
      { tok := cachedTok, now := 0, wait := 100000000, maxW := 5000000000 }
      429 "slow down" rfl rfl (by omega)
    exact h
  · have h := claim_C4.2.2.2.2.2.2.2 envTwo503 cachedTok 0 100000000 (by decide)
    exact h

/-! ## C5 -/

/-- C5: on 20 consecutive 500 responses the executor returns the
`max retries (20) exceeded` error after exactly 20 requests (the sleeps
growing by 1.5× until capped at the 5 s ceiling); every run issues at most
`maxRetries = 20` requests; and every invocation starts from the fresh
state `wait = baseWait`, `ceiling = maxWait`, 20 fresh iterations. -/
theorem claim_C5 :
    doRequestWithRetry envAll500 cachedTok 0 =
      { result := some "max retries (20) exceeded", requests := 20,
        sleeps := [100000000, 150000000, 225000000, 337500000, 506250000,
                   759375000, 1139062500, 1708593750, 2562890625, 3844335937,
                   5000000000, 5000000000, 5000000000, 5000000000, 5000000000,
                   5000000000, 5000000000, 5000000000, 5000000000, 5000000000],
        refreshes := 0 } ∧
    (∀ (env : Nat → AttemptEnv) (c : TokenState) (t : Int),
      (doRequestWithRetry env c t).requests ≤ maxRetries) ∧
    (∀ (env : Nat → AttemptEnv) (c : TokenState) (t : Int),
      doRequestWithRetry env c t =
        runRetry env maxRetries 0
          { tok := c, now := t, wait := baseWait, maxW := maxWait }) := by
  refine ⟨rfl, ?_, fun _ _ _ => rfl⟩
  intro env c t
  exact runRetry_requests_le env maxRetries 0
    { tok := c, now := t, wait := baseWait, maxW := maxWait }

/-! ## C6 -/

/-- C6: on `[401, 200]` with a valid cached token and a working token
endpoint the executor succeeds after two requests with exactly one forced
refresh and no sleep; `refreshToken` is `getToken` after clearing the
cached token and expiry; and the 401/403 branch (refresh succeeding)
sleeps nothing and keeps wait and ceiling unchanged. -/
theorem claim_C6 :
    doRequestWithRetry envOne401 cachedTok 0 =
      { result := none, requests := 2, sleeps := [], refreshes := 1 } ∧
    (∀ (now : Int) (f : TokenFetchResult),
      refreshToken now f = getToken { token := "", tokenExpiry := 0 } now f) ∧
    (∀ (env : AttemptEnv) (s : LoopState) (code : Int) (body : String)
        (t2 : String) (c2 : TokenState),
      tokenValid s.tok s.now = true → env.response = .status code body →
      (code = 401 ∨ code = 403) →
      refreshToken s.now env.refreshFetch = .ok (t2, c2) →
      stepRetry env s =
        .next { tok := c2, now := s.now, wait := s.wait, maxW := s.maxW }
          none true) := by
  refine ⟨rfl, fun _ _ => rfl, ?_⟩
  intro env s code body t2 c2 hv hr hc href
  exact stepRetry_auth env s code body t2 c2 hv hr hc href

/-- Witness for C6: a 401 with a valid cached token and a refresh
answering a fresh one-hour token continues with the refreshed token state,
sleeping nothing and keeping wait and ceiling. -/
theorem claim_C6_witness :
    stepRetry
        { tokenFetch := fetchOK, refreshFetch := fetchOK, response := .status 401 "denied" }
        { tok := cachedTok, now := 0, wait := 100000000, maxW := 5000000000 } =
      .next { tok := { token := "tok2", tokenExpiry := 3300000000000 }, now := 0,
              wait := 100000000, maxW := 5000000000 }
        none true := by
  have h := claim_C6.2.2
    { tokenFetch := fetchOK, refreshFetch := fetchOK, response := .status 401 "denied" }
    { tok := cachedTok, now := 0, wait := 100000000, maxW := 5000000000 }
    401 "denied" "tok2" { token := "tok2", tokenExpiry := 3300000000000 }
    rfl rfl (Or.inl rfl) rfl
  exact h

/-! ## C7 -/

/-- C7: a 400 on the first attempt makes the run return immediately with
the status and body in the error after exactly one request; in general any
4xx other than 401/403/404/429 returns the status/body error from its
iteration with no further attempt, and any 2xx returns nil from its
iteration. -/
theorem claim_C7 :
    doRequestWithRetry envOne400 cachedTok 0 =
      { result := some "request failed: status 400, body: bad", requests := 1,
        sleeps := [], refreshes := 0 } ∧
    (∀ (env : Nat → AttemptEnv) (fuel i : Nat) (s : LoopState) (code : Int)
        (body : String),
      tokenValid s.tok s.now = true → (env i).response = .status code body →
      400 ≤ code → code < 500 →
      code ≠ 401 → code ≠ 403 → code ≠ 404 → code ≠ 429 →
      runRetry env (fuel + 1) i s =
        { result := some ("request failed: status " ++ toString code ++
            ", body: " ++ body),
          requests := 1, sleeps := [], refreshes := 0 }) ∧
    (∀ (env : Nat → AttemptEnv) (fuel i : Nat) (s : LoopState) (code : Int)
        (body : String),
      tokenValid s.tok s.now = true → (env i).response = .status code body →
      200 ≤ code → code < 300 →
      runRetry env (fuel + 1) i s =
        { result := none, requests := 1, sleeps := [], refreshes := 0 }) := by
  refine ⟨rfl, ?_, ?_⟩
  · intro env fuel i s code body hv hr h4 h5 hn1 hn2 hn3 hn4
    rw [runRetry_done env fuel i s _ true false
      (stepRetry_other (env i) s code body hv hr (by omega) hn1 hn2 hn3 hn4 h5)]
    rfl
  · intro env fuel i s code body hv hr h2 h3
    rw [runRetry_done env fuel i s _ true false
      (stepRetry_2xx (env i) s code body hv hr ⟨h2, h3⟩)]
    rfl

/-- Witness for C7: a 418 on the first iteration returns the status/body
error with one request and no retry. -/
theorem claim_C7_witness :
    runRetry (fun _ => ⟨fetchOK, fetchOK, .status 418 "teapot"⟩) 20 0
      { tok := cachedTok, now := 0, wait := baseWait, maxW := maxWait } =
      { result := some ("request failed: status " ++ toString (418 : Int) ++
          ", body: " ++ "teapot"),
        requests := 1, sleeps := [], refreshes := 0 } := by
  have h := claim_C7.2.1 (fun _ => ⟨fetchOK, fetchOK, .status 418 "teapot"⟩) 19 0
    { tok := cachedTok, now := 0, wait := baseWait, maxW := maxWait }
    418 "teapot" rfl rfl (by omega) (by omega) (by omega) (by omega) (by omega) (by omega)
  exact h

/-! ## Splitting lemmas for the resource layer -/

/-- Lemma that `splitFirst` finds nothing exactly when the separator does not occur. -/
theorem splitFirst_eq_none_iff (sep : Char) :
    ∀ cs : List Char, splitFirst sep cs = none ↔ sep ∉ cs := by
  intro cs
  induction cs with
  | nil => simp [splitFirst]
  | cons c cs ih =>
    rw [splitFirst]
    by_cases hc : c = sep
    · subst hc
      simp
    · rw [if_neg hc]
      cases h2 : splitFirst sep cs with
      | none =>
        have hnotin := ih.mp h2
        constructor
        · intro _ hm
          rcases List.mem_cons.mp hm with h | h
          · exact hc h.symm
          · exact hnotin h
        · intro _
          rfl
      | some q =>
        obtain ⟨pre, post⟩ := q
        have hin : sep ∈ cs := by
          by_contra hno
          rw [ih.mpr hno] at h2
          exact Option.noConfusion h2
        simp [List.mem_cons, hin]

/-- What `splitFirst` returns really is the decomposition at the first
separator. -/
theorem splitFirst_eq_some (sep : Char) :
    ∀ cs pre post : List Char, splitFirst sep cs = some (pre, post) →
      cs = pre ++ sep :: post ∧ sep ∉ pre := by
  intro cs
  induction cs with
  | nil =>
    intro pre post h
    simp [splitFirst] at h
  | cons c cs ih =>
    intro pre post h
    rw [splitFirst] at h
    by_cases hc : c = sep
    · rw [if_pos hc] at h
      simp only [Option.some.injEq, Prod.mk.injEq] at h
      obtain ⟨h1, h2⟩ := h
      subst h1
      subst h2
      subst hc
      exact ⟨rfl, by simp⟩
    · rw [if_neg hc] at h
      cases h2 : splitFirst sep cs with
      | none =>
        rw [h2] at h
        simp at h
      | some q =>
        obtain ⟨pre', post'⟩ := q
        rw [h2] at h
        simp only [Option.some.injEq, Prod.mk.injEq] at h
        obtain ⟨h3, h4⟩ := h
        obtain ⟨hcs, hpre⟩ := ih pre' post' h2
        subst h3
        subst h4
        refine ⟨by rw [hcs]; rfl, ?_⟩
        intro hm
        rcases List.mem_cons.mp hm with h | h
        · exact hc h.symm
        · exact hpre h

/-- Splitting at an explicitly placed first separator. -/
theorem splitFirst_append (sep : Char) (ys : List Char) :
    ∀ xs : List Char, sep ∉ xs → splitFirst sep (xs ++ sep :: ys) = some (xs, ys) := by
  intro xs
  induction xs with
  | nil =>
    intro _
    simp [splitFirst]
  | cons c cs ih =>
    intro h
    have hc : ¬(c = sep) := fun e => h (by simp [e])
    have hcs : sep ∉ cs := fun hm => h (List.mem_cons_of_mem _ hm)
    rw [List.cons_append, splitFirst, if_neg hc, ih hcs]

/-- A found separator accounts for exactly one occurrence. -/
theorem count_of_splitFirst_some (sep : Char) (cs pre post : List Char)
    (h : splitFirst sep cs = some (pre, post)) :
    cs.count sep = post.count sep + 1 := by
  obtain ⟨hcs, hpre⟩ := splitFirst_eq_some sep cs pre post h
  subst hcs
  rw [List.count_append, List.count_cons_self, List.count_eq_zero.mpr hpre]
  omega

/-- Unfolding `SplitN(·, ·, 3)` one level. -/
theorem splitNChars_three (sep : Char) (cs : List Char) :
    splitNChars sep 3 cs =
      match splitFirst sep cs with
      | none => [cs]
      | some (pre, post) => pre :: splitNChars sep 2 post := rfl

/-- Unfolding `SplitN(·, ·, 2)` completely. -/
theorem splitNChars_two (sep : Char) (cs : List Char) :
    splitNChars sep 2 cs =
      match splitFirst sep cs with
      | none => [cs]
      | some (pre, post) => [pre, post] := rfl

/-- The call `SplitN(s, sep, 3)` yields three parts exactly when the separator occurs
at least twice. -/
theorem splitNChars_three_length (sep : Char) (cs : List Char) :
    (splitNChars sep 3 cs).length = 3 ↔ 2 ≤ cs.count sep := by
  rw [splitNChars_three]
  cases h1 : splitFirst sep cs with
  | none =>
    have h0 : cs.count sep = 0 :=
      List.count_eq_zero.mpr ((splitFirst_eq_none_iff sep cs).mp h1)
    show ([cs] : List (List Char)).length = 3 ↔ 2 ≤ cs.count sep
    simp [h0]
  | some p =>
    obtain ⟨pre, post⟩ := p
    have hc1 := count_of_splitFirst_some sep cs pre post h1
    show (pre :: splitNChars sep 2 post).length = 3 ↔ 2 ≤ cs.count sep
    rw [splitNChars_two]
    cases h2 : splitFirst sep post with
    | none =>
      have h0 : post.count sep = 0 :=
        List.count_eq_zero.mpr ((splitFirst_eq_none_iff sep post).mp h2)
      show (2 : Nat) = 3 ↔ 2 ≤ cs.count sep
      omega
    | some q =>
      obtain ⟨pre2, post2⟩ := q
      have hc2 := count_of_splitFirst_some sep post pre2 post2 h2
      show (3 : Nat) = 3 ↔ 2 ≤ cs.count sep
      omega

/-- Evaluation of `SplitN(s, sep, 3)` on a string with exactly two marked separators. -/
theorem splitNChars_three_of (sep : Char) (xs ys zs : List Char)
    (hx : sep ∉ xs) (hy : sep ∉ ys) :
    splitNChars sep 3 (xs ++ sep :: (ys ++ sep :: zs)) = [xs, ys, zs] := by
  rw [splitNChars_three, splitFirst_append sep _ xs hx]
  show xs :: splitNChars sep 2 (ys ++ sep :: zs) = [xs, ys, zs]
  rw [splitNChars_two, splitFirst_append sep zs ys hy]

/-! ## C2 -/

/-- C2 (amended): `ImportState` succeeds exactly when the import ID
contains at least two `:` characters — `SplitN(id, ":", 3)` then yields
exactly three parts, the third keeping any further colons — and otherwise
fails with the `Invalid Import ID` error setting nothing. -/
theorem claim_C2 (s : String) :
    (∃ st, importState s = .ok st) ↔ 2 ≤ s.toList.count ':' := by
  rw [← splitNChars_three_length ':' s.toList]
  simp only [importState]
  by_cases h : ((splitNChars ':' 3 s.toList).map String.mk).length = 3
  · rw [if_pos h]
    rw [List.length_map] at h
    constructor
    · intro _
      exact h
    · intro _
      exact ⟨_, rfl⟩
  · rw [if_neg h]
    rw [List.length_map] at h
    constructor
    · intro ⟨st, hst⟩
      exact absurd hst (by simp)
    · intro h2
      exact absurd h2 h

/-- Witness for C2: `"a@b.com:vendor:Owner"` imports successfully, and its
colon count is at least two. -/
theorem claim_C2_witness :
    (∃ st, importState "a@b.com:vendor:Owner" = .ok st) ↔
      2 ≤ "a@b.com:vendor:Owner".toList.count ':' :=
  claim_C2 "a@b.com:vendor:Owner"

/-- C2 counterexample: the claim as stated is false for an ID with more
than two colons — `"a:b:c:d"` has three colons, yet `ImportState` succeeds
(the third part keeps the extra colon as part of the role name) instead of
returning the `Invalid Import ID` error. -/
theorem claim_C2_counterexample :
    importState "a:b:c:d" =
      .ok { id := "a:b:c:d", email := "a", name := "a", account := "b",
            roleName := "c:d" } ∧
    "a:b:c:d".toList.count ':' = 3 :=
  ⟨rfl, rfl⟩

/-! ## C9 -/

/-- C9: for every assignment, `Create` synthesizes the ID
`email + ":" + account + ":" + role_name`, and — provided email and
account contain no `:` — `ImportState` on that ID recovers the same email,
account and role name, deriving the name from the email's local part. -/
theorem claim_C9 (email account role name : String)
    (he : ':' ∉ email.toList) (ha : ':' ∉ account.toList) :
    (createState { email := email, name := name, account := account,
                   roleName := role }).id = email ++ ":" ++ account ++ ":" ++ role ∧
    importState (email ++ ":" ++ account ++ ":" ++ role) =
      .ok { id := email ++ ":" ++ account ++ ":" ++ role, email := email,
            name := emailLocalPart email, account := account,
            roleName := role } := by
  refine ⟨rfl, ?_⟩
  have hl : (email ++ ":" ++ account ++ ":" ++ role).toList
      = email.toList ++ ':' :: (account.toList ++ ':' :: role.toList) := by
    simp [String.toList, String.data_append]
  simp only [importState, hl, splitNChars_three_of ':' _ _ _ he ha, List.map]
  rfl

/-- Witness for C9: the spec's example —
`(email="a@b.com", account="vendor", role="Owner")` round-trips through
`"a@b.com:vendor:Owner"` with derived name `"a"`. -/
theorem claim_C9_witness :
    (createState { email := "a@b.com", name := "", account := "vendor",
                   roleName := "Owner" }).id = "a@b.com" ++ ":" ++ "vendor" ++ ":" ++ "Owner" ∧
    importState ("a@b.com" ++ ":" ++ "vendor" ++ ":" ++ "Owner") =
      .ok { id := "a@b.com" ++ ":" ++ "vendor" ++ ":" ++ "Owner",
            email := "a@b.com", name := emailLocalPart "a@b.com",
            account := "vendor", roleName := "Owner" } :=
  claim_C9 "a@b.com" "vendor" "Owner" "" (by decide) (by decide)

/-! ## C10 -/

/-- C10: when the planned name is empty, `Create` derives the name as the
part of the email strictly before the first `@`; an email with no `@`
yields itself as the name (the operation still succeeding); and every
successful `ImportState` derives the name from its email the same way. -/
theorem claim_C10 :
    (∀ d : PlanData, d.name = "" → (createState d).name = emailLocalPart d.email) ∧
    (∀ email : String, '@' ∉ email.toList → emailLocalPart email = email) ∧
    (∀ (s : String) (st : UserRoleState), importState s = .ok st →
      st.name = emailLocalPart st.email) := by
  refine ⟨?_, ?_, ?_⟩
  · intro d h
    simp [createState, h]
  · intro email h
    unfold emailLocalPart
    rw [(splitFirst_eq_none_iff '@' email.toList).mpr h]
  · intro s st h
    simp only [importState] at h
    by_cases hlen : ((splitNChars ':' 3 s.toList).map String.mk).length = 3
    · rw [if_pos hlen] at h
      simp only [Except.ok.injEq] at h
      subst h
      rfl
    · rw [if_neg hlen] at h
      exact absurd h (by simp)

/-- Witness for C10: `Create` with an empty name and the at-sign-free
email `"noatsign"` sets the name to the whole email. -/
theorem claim_C10_witness :
    (createState { email := "noatsign", name := "", account := "acc",
                   roleName := "r" }).name = emailLocalPart "noatsign" ∧
    emailLocalPart "noatsign" = "noatsign" :=
  ⟨claim_C10.1 { email := "noatsign", name := "", account := "acc", roleName := "r" } rfl,
   claim_C10.2.1 "noatsign" (by decide)⟩

end Vtex
